import Mathlib

/-!
Verification of the asynchronous scan-and-tune orchestration engine of
apstools (src/apstools/plans.py) against its natural-language specification.

The embedding models Python floats as rationals and models the stateful
plan functions as explicit state-passing functions that also produce a
trace of hardware effects.  External collaborators (the ophyd status
object, the bluesky PeakStats accumulator, hardware devices) are modelled
at their interface boundary as the specification describes them.
-/

namespace Apstools

/-! ## Peak statistics (interface model of bluesky PeakStats)

The tuner only reads the extrema of the response signal from the
accumulator: peak_detected uses peaks.max and peaks.min, each a
(position, value) pair whose last component is the response value.
The centroid estimators (cen, com) feed the final move; their numeric
behaviour is irrelevant to the claims, so the embedding quantifies over
them (an Estimators record). -/

/-- Samples accumulated by the PeakStats collaborator during one pass:
an ordered list of (position, response) pairs. -/
structure PeakStatsModel where
  samples : List (ℚ × ℚ)
deriving DecidableEq, Repr

/-- Greatest response value among the samples (the value component of
peaks.max, i.e. max[-1] in the source); none when no samples exist,
modelling peaks.max is None. -/
def PeakStatsModel.ymax? (p : PeakStatsModel) : Option ℚ :=
  match p.samples.map Prod.snd with
  | [] => none
  | y :: ys => some (ys.foldl max y)

/-- Least response value among the samples (the value component of
peaks.min, i.e. min[-1] in the source). -/
def PeakStatsModel.ymin? (p : PeakStatsModel) : Option ℚ :=
  match p.samples.map Prod.snd with
  | [] => none
  | y :: ys => some (ys.foldl min y)

/-- The centroid estimators of the PeakStats collaborator, supplied by the
environment: cen (parabolic estimate) and com (center of mass), each a
function of the accumulated samples.  The tuner claims hold for every
estimator behaviour. -/
structure Estimators where
  cen : List (ℚ × ℚ) → ℚ
  com : List (ℚ × ℚ) → ℚ

/-! ## TuneAxis state -/

/-- The mutable attributes of one TuneAxis instance that the tuning plans
read and write (TuneAxis.__init__, plans.py lines 483-499). -/
structure TuneAxisState where
  width : ℚ
  num : ℕ
  step_factor : ℚ
  pass_max : ℕ
  snake : Bool
  peak_choice : String
  tune_ok : Bool
  center : Option ℚ
  stats : List PeakStatsModel
  peaks : Option PeakStatsModel

/-- The recognized peak_choice values (TuneAxis._peak_choices_). -/
def peakChoices : List String := ["cen", "com"]

/-- The instance defaults set by TuneAxis.__init__. -/
def TuneAxisState.init : TuneAxisState :=
  { width := 1
    num := 10
    step_factor := 4
    pass_max := 6
    snake := true
    peak_choice := "cen"
    tune_ok := false
    center := none
    stats := []
    peaks := none }

/-- The body of TuneAxis.peak_detected as a function of the accumulator:
false when no accumulator or no samples, otherwise true iff the maximum
response strictly exceeds four times the minimum response
(ymax > 4*ymin in the source). -/
def peakDetectedOn (p? : Option PeakStatsModel) : Bool :=
  match p? with
  | none => false
  | some p =>
    match p.ymax?, p.ymin? with
    | some ymax, some ymin => decide (ymax > 4 * ymin)
    | _, _ => false

/-- TuneAxis.peak_detected reads self.peaks. -/
def TuneAxisState.peak_detected (s : TuneAxisState) : Bool :=
  peakDetectedOn s.peaks

/-! ## Single-pass tune -/

/-- Python falsy-default substitution for a rational argument:
the idiom width = width or self.width maps None and 0 to the default. -/
def orDefaultQ (arg : Option ℚ) (d : ℚ) : ℚ :=
  match arg with
  | none => d
  | some w => if w = 0 then d else w

/-- Python falsy-default substitution for an integer argument:
num = num or self.num maps None and 0 to the default. -/
def orDefaultN (arg : Option ℕ) (d : ℕ) : ℕ :=
  match arg with
  | none => d
  | some n => if n = 0 then d else n

/-- np.linspace(start, finish, num): num evenly spaced points including
both endpoints (a single point is the start; zero points is empty). -/
def linspace (start finish : ℚ) (num : ℕ) : List ℚ :=
  match num with
  | 0 => []
  | 1 => [start]
  | n + 2 =>
      (List.range (n + 2)).map
        (fun i : ℕ => start + (finish - start) * (i : ℚ) / ((n : ℚ) + 1))

/-- The scan positions of one tune pass: linspace from
initial - width/2 to initial + width/2 (plans.py lines 531-532, 590). -/
def tunePositions (initial width : ℚ) (num : ℕ) : List ℚ :=
  linspace (initial - width / 2) (initial + width / 2) num

/-- One hardware/document effect issued by a tune pass, in order. -/
inductive Effect where
  | move (pos : ℚ)
  | triggerRead
  | emitResults
deriving DecidableEq, Repr

/-- The outcome record of one tune pass (the Results stream fields the
claims mention). -/
structure TuneResult where
  tune_ok : Bool
  initial_position : ℚ
  final_position : ℚ
  center : Option ℚ
deriving DecidableEq

/-- Error message raised for an unrecognized peak_choice
(plans.py lines 524-527). -/
def peakChoiceMsg (c : String) : String :=
  "peak_choice must be one of cen com, geave " ++ c

/-- The samples the PeakStats accumulator holds at the end of the scan:
one (position, response) pair per scan position, in scan order. -/
def tuneSamples (det : ℚ → ℚ) (initial width : ℚ) (num : ℕ) :
    List (ℚ × ℚ) :=
  (tunePositions initial width num).map (fun p => (p, det p))

/-- Whether the pass detects a peak: peak_detected evaluated on the
freshly accumulated samples. -/
def tuneDetected (det : ℚ → ℚ) (initial width : ℚ) (num : ℕ) : Bool :=
  peakDetectedOn (some ⟨tuneSamples det initial width num⟩)

/-- The final position commanded at the end of the pass: the estimator
selected by peak_choice when a peak was detected, otherwise the initial
position (plans.py lines 597-606). -/
def tuneFinalPos (s : TuneAxisState) (E : Estimators) (det : ℚ → ℚ)
    (initial width : ℚ) (num : ℕ) : ℚ :=
  if tuneDetected det initial width num then
    (if s.peak_choice = "cen" then E.cen (tuneSamples det initial width num)
     else E.com (tuneSamples det initial width num))
  else initial

/-- TuneAxis.tune: one pass.  Substitutes falsy arguments by instance
defaults, validates peak_choice (raising before any hardware effect),
then scans num positions across the width centered on the current axis
position, reading the detector at each, decides peak_detected, and ends
with a move to the final position.  Returns the effect trace and, on
success, the result record and the updated instance state; inMultiPass
records whether pass_max is present in the metadata (which suppresses the
stats reset).  The detector response is det : position → value. -/
def TuneAxisState.tune (s : TuneAxisState) (E : Estimators) (det : ℚ → ℚ)
    (axisPos : ℚ) (width? : Option ℚ) (num? : Option ℕ)
    (inMultiPass : Bool) :
    List Effect × Except String (TuneResult × TuneAxisState) :=
  let width := orDefaultQ width? s.width
  let num := orDefaultN num? s.num
  if s.peak_choice ∈ peakChoices then
    let s1 := if inMultiPass then s else { s with stats := [] }
    let pk : PeakStatsModel := ⟨tuneSamples det axisPos width num⟩
    let detected := tuneDetected det axisPos width num
    let finalPos := tuneFinalPos s E det axisPos width num
    let res : TuneResult :=
      { tune_ok := detected
        initial_position := axisPos
        final_position := finalPos
        center := if detected then some finalPos else s.center }
    let s4 :=
      { s1 with
          tune_ok := detected
          peaks := some pk
          center := if detected then some finalPos else s.center
          stats := s1.stats ++ [pk] }
    let effs :=
      ((tunePositions axisPos width num).flatMap
          (fun p => [Effect.move p, Effect.triggerRead]))
        ++ (if detected then [Effect.emitResults] else [])
        ++ [Effect.move finalPos]
    (effs, Except.ok (res, s4))
  else
    ([], Except.error (peakChoiceMsg s.peak_choice))

/-! ## Multi-pass tune -/

/-- Observables of one multi-pass run: the final instance state, the final
axis position, and per executed pass the width handed to tune and the
tune_ok outcome. -/
structure MultiPassOut where
  state : TuneAxisState
  finalPos : ℚ
  widths : List ℚ
  oks : List Bool

/-- The loop body of TuneAxis.multi_pass_tune._scan: run up to r more
passes starting at pass index k with current width w and axis position
pos.  After each pass, stop if tune_ok is false; otherwise divide the
width by step_factor and negate it when snake is set.  The detector may
respond differently on each pass (det k).  A tune error (invalid
peak_choice) propagates as in the source. -/
def multiPassLoop (E : Estimators) (det : ℕ → ℚ → ℚ) (sf : ℚ)
    (snake : Bool) (num? : Option ℕ) :
    ℕ → ℕ → ℚ → ℚ → TuneAxisState → Except String MultiPassOut
  | 0, _, _, pos, s => Except.ok ⟨s, pos, [], []⟩
  | r + 1, k, w, pos, s =>
    match (s.tune E (det k) pos (some w) num? true).2 with
    | Except.error e => Except.error e
    | Except.ok (res, s1) =>
      if s1.tune_ok then
        let w1 := w / sf
        let w2 := if snake then -w1 else w1
        match multiPassLoop E det sf snake num? r (k + 1) w2
            res.final_position s1 with
        | Except.error e => Except.error e
        | Except.ok out =>
            Except.ok ⟨out.state, out.finalPos, w :: out.widths,
              s1.tune_ok :: out.oks⟩
      else
        Except.ok ⟨s1, res.final_position, [w], [s1.tune_ok]⟩

/-- Python falsy-default substitution for the snake flag:
snake = snake or self.snake maps None and False to the default. -/
def orDefaultB (arg : Option Bool) (d : Bool) : Bool :=
  match arg with
  | some true => true
  | _ => d

/-- TuneAxis.multi_pass_tune: substitute instance defaults for falsy
arguments, clear the pass history, and run the pass loop with the
effective pass budget. -/
def TuneAxisState.multi_pass_tune (s : TuneAxisState) (E : Estimators)
    (det : ℕ → ℚ → ℚ) (axisPos : ℚ) (width? : Option ℚ)
    (stepFactor? : Option ℚ) (num? : Option ℕ) (passMax? : Option ℕ)
    (snake? : Option Bool) : Except String MultiPassOut :=
  let width := orDefaultQ width? s.width
  let num := orDefaultN num? s.num
  let sf := orDefaultQ stepFactor? s.step_factor
  let snake := orDefaultB snake? s.snake
  let passMax := orDefaultN passMax? s.pass_max
  multiPassLoop E det sf snake (some num) passMax 0 width axisPos
    { s with stats := [] }

/-! ## Async scan monitor (sscan_1D) -/

/-- The setup-time effects of sscan_1D, in source order: channel
selection, the two subscriptions, opening the run and issuing the start
command (plans.py lines 393-406), all after the poll-interval assert. -/
inductive SetupEffect where
  | selectChannels
  | subscribeExecute
  | subscribePhase
  | openRun
  | startCommand
deriving DecidableEq, Repr

/-- The assert message for an out-of-range poll_delay_s. -/
def pollDelayMsg : String :=
  "poll_delay_s must be a number between 0 and 0.1"

/-- The configuration check and setup prefix of sscan_1D: the assert
0 <= poll_delay_s <= 0.1 runs first; on failure nothing else happens (no
subscription, no hardware command), otherwise the setup effects are
issued in order. -/
def sscanSetup (poll_delay_s : ℚ) :
    List SetupEffect × Except String Unit :=
  if 0 ≤ poll_delay_s ∧ poll_delay_s ≤ 1 / 10 then
    ([SetupEffect.selectChannels, SetupEffect.subscribeExecute,
      SetupEffect.subscribePhase, SetupEffect.openRun,
      SetupEffect.startCommand], Except.ok ())
  else
    ([], Except.error pollDelayMsg)

/-- The state shared between the sscan_1D poll loop and the device
callbacks: the new_data flag set by phase_cb, the completion status
finished by execute_cb, the subscription flag (execute_cb unsubscribes
both callbacks), the exited flag of the while loop, and the number of
rows emitted to the running stream. -/
structure SscanState where
  new_data : Bool
  done : Bool
  success : Bool
  subscribed : Bool
  exited : Bool
  rows : ℕ
deriving DecidableEq, Repr

/-- The state right after the start command: flag clear, status pending,
callbacks subscribed, no rows emitted. -/
def SscanState.start : SscanState :=
  { new_data := false, done := false, success := false,
    subscribed := true, exited := false, rows := 0 }

/-- One occurrence in an interleaving of device notifications with poll
loop iterations: a phase notification carrying the new-data sentinel
(value 15), any other phase notification, the execute control returning
to idle (value 0, observed with started already true), or one iteration
of the main while loop. -/
inductive SscanEvent where
  | newData
  | phaseOther
  | idle
  | loopIter
deriving DecidableEq, Repr

/-- One step of the sscan_1D run (phase_timeout_s = None, so no stall
deadline is tracked).  phase_cb sets the new_data flag on the sentinel;
execute_cb marks the status finished successfully and unsubscribes;
a loop iteration either runs the body (emit one row when the flag is set
and the running stream is enabled, then clear the flag and sleep) or, when
the status is done and no row is pending, exits.  Callbacks after
unsubscription, and loop iterations after exit, change nothing. -/
def sscanStep (runningStream : Bool) (s : SscanState) (e : SscanEvent) :
    SscanState :=
  match e with
  | SscanEvent.newData =>
      if s.subscribed then { s with new_data := true } else s
  | SscanEvent.phaseOther => s
  | SscanEvent.idle =>
      if s.subscribed then
        { s with done := true, success := true, subscribed := false }
      else s
  | SscanEvent.loopIter =>
      if s.exited then s
      else if ¬s.done ∨ s.new_data then
        let s1 :=
          if s.new_data ∧ runningStream then { s with rows := s.rows + 1 }
          else s
        { s1 with new_data := false }
      else { s with exited := true }

/-- Run the monitor over a whole interleaving of events. -/
def sscanRun (runningStream : Bool) (events : List SscanEvent) :
    SscanState :=
  events.foldl (sscanStep runningStream) SscanState.start

/-- The interleaving where each device notification is observed by a loop
iteration before the next one arrives: K times (newData then loopIter),
then idle and a final loop iteration. -/
def sscanSpaced (K : ℕ) : List SscanEvent :=
  (List.replicate K [SscanEvent.newData, SscanEvent.loopIter]).flatten
    ++ [SscanEvent.idle, SscanEvent.loopIter]

/-- Number of new-data notifications in an interleaving. -/
def countNewData (events : List SscanEvent) : ℕ :=
  events.countP (fun e => e = SscanEvent.newData)

/-! ## Blocking-call adapter (run_blocker_in_plan) -/

/-- State shared between run_blocker_in_plan's poll loop and the worker
thread: the status object (done, success), whether the blocking function
has run to completion, and whether the await loop has exited. -/
structure BlockerState where
  done : Bool
  success : Bool
  blockerRan : Bool
  exited : Bool
deriving DecidableEq, Repr

/-- Initial state: status pending, blocker still running, loop live. -/
def BlockerState.start : BlockerState :=
  { done := false, success := false, blockerRan := false, exited := false }

/-- Terminal transition of the status object.  Modelled from the spec:
the Completion Signal contract of the external status collaborator —
exactly one terminal transition takes effect; marking an already-done
signal again is a no-op. -/
def markFinished (s : BlockerState) (suc : Bool) : BlockerState :=
  if s.done then s else { s with done := true, success := suc }

/-- One occurrence in an interleaving of the worker thread with the await
loop: the thread finishing the blocking call (then marking the status
successful), or one check of the while loop at wall-clock time now. -/
inductive BlockerEvent where
  | threadFinish
  | loopCheck (now : ℚ)

/-- One step of run_blocker_in_plan with expiry time expire? (none when
no timeout is configured).  The thread's finish always happens — nothing
kills the blocking call — and then marks the status successful (a no-op
if the status is already done).  A loop check exits when the status is
done; otherwise, past the expiry time it marks the status failed and
breaks, and otherwise sleeps. -/
def blockerStep (expire? : Option ℚ) (s : BlockerState) (e : BlockerEvent) :
    BlockerState :=
  match e with
  | BlockerEvent.threadFinish =>
      markFinished { s with blockerRan := true } true
  | BlockerEvent.loopCheck now =>
      if s.exited then s
      else if s.done then { s with exited := true }
      else
        match expire? with
        | some expire =>
            if now > expire then
              { markFinished s false with exited := true }
            else s
        | none => s

/-- Run the adapter over a whole interleaving of events. -/
def blockerRun (expire? : Option ℚ) (events : List BlockerEvent) :
    BlockerState :=
  events.foldl (blockerStep expire?) BlockerState.start

/-! ## Theorems -/

theorem foldl_max_replicate (y : ℚ) (n : ℕ) :
    (List.replicate n y).foldl max y = y := by
  induction n with
  | zero => rfl
  | succ k ih => simpa [List.replicate_succ] using ih

theorem foldl_min_replicate (y : ℚ) (n : ℕ) :
    (List.replicate n y).foldl min y = y := by
  induction n with
  | zero => rfl
  | succ k ih => simpa [List.replicate_succ] using ih

/-- A zero-width scan visits the same position at every step. -/
theorem linspace_self (p : ℚ) (n : ℕ) :
    linspace p p n = List.replicate n p := by
  match n with
  | 0 => rfl
  | 1 => rfl
  | k + 2 =>
    rw [List.eq_replicate_iff]
    constructor
    · rw [linspace, List.length_map, List.length_range]
    · intro b hb
      rw [linspace] at hb
      simp only [List.mem_map, List.mem_range] at hb
      obtain ⟨i, -, rfl⟩ := hb
      ring

/-- The extrema of a constant sample list are that constant. -/
theorem ymax?_replicate (x y : ℚ) (k : ℕ) :
    PeakStatsModel.ymax? ⟨List.replicate (k + 1) (x, y)⟩ = some y := by
  rw [PeakStatsModel.ymax?]
  simp [List.replicate_succ, foldl_max_replicate]

theorem ymin?_replicate (x y : ℚ) (k : ℕ) :
    PeakStatsModel.ymin? ⟨List.replicate (k + 1) (x, y)⟩ = some y := by
  rw [PeakStatsModel.ymin?]
  simp [List.replicate_succ, foldl_min_replicate]

/-- C2: for every accumulated sample set with defined extrema, the default
peak-detection predicate holds iff the maximum observed response strictly
exceeds four times the minimum observed response; in particular extrema
(10, 1) detect a peak and extrema (3, 1) do not. -/
theorem peak_detected_iff_max_gt_four_min
    (s : TuneAxisState) (p : PeakStatsModel) (M m : ℚ)
    (hp : s.peaks = some p) (hM : p.ymax? = some M)
    (hm : p.ymin? = some m) :
    (s.peak_detected = true ↔ M > 4 * m) ∧
    TuneAxisState.peak_detected
      { TuneAxisState.init with peaks := some ⟨[(0, 1), (1, 10)]⟩ } = true ∧
    TuneAxisState.peak_detected
      { TuneAxisState.init with peaks := some ⟨[(0, 1), (1, 3)]⟩ } = false := by
  refine ⟨?_, ?_, ?_⟩
  · rw [TuneAxisState.peak_detected, hp, peakDetectedOn, hM, hm]
    simp
  · norm_num [TuneAxisState.peak_detected, peakDetectedOn,
      PeakStatsModel.ymax?, PeakStatsModel.ymin?]
  · norm_num [TuneAxisState.peak_detected, peakDetectedOn,
      PeakStatsModel.ymax?, PeakStatsModel.ymin?]

/-- Witness for C2 at a concrete single-sample accumulator. -/
theorem peak_detected_iff_max_gt_four_min_witness :
    (({ TuneAxisState.init with peaks := some ⟨[(0, -1)]⟩ } :
        TuneAxisState).peak_detected = true ↔ (-1 : ℚ) > 4 * (-1)) :=
  (peak_detected_iff_max_gt_four_min
    { TuneAxisState.init with peaks := some ⟨[(0, -1)]⟩ }
    ⟨[(0, -1)]⟩ (-1) (-1) rfl rfl rfl).1

/-- C8: a tune invocation with an unrecognized peak_choice produces the
descriptive ValueError and an empty effect trace — no axis move and no
other hardware interaction takes place. -/
theorem invalid_peak_choice_rejected_without_effects
    (s : TuneAxisState) (E : Estimators) (det : ℚ → ℚ) (axisPos : ℚ)
    (width? : Option ℚ) (num? : Option ℕ) (inMultiPass : Bool)
    (h : s.peak_choice ∉ peakChoices) :
    s.tune E det axisPos width? num? inMultiPass
      = ([], Except.error (peakChoiceMsg s.peak_choice)) := by
  simp only [TuneAxisState.tune]
  rw [if_neg h]

/-- Witness for C8: peak_choice "max" is rejected with no effects. -/
theorem invalid_peak_choice_rejected_without_effects_witness :
    ({ TuneAxisState.init with peak_choice := "max" } :
        TuneAxisState).tune ⟨fun _ => 0, fun _ => 0⟩ (fun _ => 0) 0 none
        none false
      = ([], Except.error (peakChoiceMsg "max")) :=
  invalid_peak_choice_rejected_without_effects
    { TuneAxisState.init with peak_choice := "max" }
    ⟨fun _ => 0, fun _ => 0⟩ (fun _ => 0) 0 none none false
    (by simp [peakChoices])

/-- C6 counterexample: the poll interval 0 lies outside the claimed
acceptance range (0, 0.1], yet sscan_1D accepts it and proceeds to
subscribe and start the scan. -/
theorem poll_interval_zero_accepted :
    ¬(0 < (0 : ℚ) ∧ (0 : ℚ) ≤ 1 / 10) ∧
    sscanSetup 0
      = ([SetupEffect.selectChannels, SetupEffect.subscribeExecute,
          SetupEffect.subscribePhase, SetupEffect.openRun,
          SetupEffect.startCommand], Except.ok ()) := by
  constructor
  · simp
  · rw [sscanSetup, if_pos]
    simp

/-- C6 (amended): a poll interval outside the closed range [0, 0.1] is
rejected before any subscription or hardware command (empty effect
trace); inside the range the full setup runs.  In particular 0.1000001 is
rejected while 0.1 and 0 are accepted. -/
theorem poll_interval_validation
    (q : ℚ) :
    (¬(0 ≤ q ∧ q ≤ 1 / 10) →
      sscanSetup q = ([], Except.error pollDelayMsg)) ∧
    ((0 ≤ q ∧ q ≤ 1 / 10) →
      sscanSetup q
        = ([SetupEffect.selectChannels, SetupEffect.subscribeExecute,
            SetupEffect.subscribePhase, SetupEffect.openRun,
            SetupEffect.startCommand], Except.ok ())) ∧
    sscanSetup (1000001 / 10000000) = ([], Except.error pollDelayMsg) ∧
    sscanSetup (1 / 10)
      = ([SetupEffect.selectChannels, SetupEffect.subscribeExecute,
          SetupEffect.subscribePhase, SetupEffect.openRun,
          SetupEffect.startCommand], Except.ok ()) := by
  refine ⟨fun h => ?_, fun h => ?_, ?_, ?_⟩
  · rw [sscanSetup, if_neg h]
  · rw [sscanSetup, if_pos h]
  · rw [sscanSetup, if_neg]
    norm_num
  · rw [sscanSetup, if_pos]
    norm_num

/-- C7 counterexample: calling tune with an explicit width = 0 on a
default instance does not sample at a single position — the falsy
argument is replaced by the instance default width 1, and the first scan
position is initial - 1/2, not the initial position. -/
theorem tune_width_zero_argument_not_degenerate :
    orDefaultQ (some 0) TuneAxisState.init.width = 1 ∧
    (TuneAxisState.init.tune ⟨fun _ => 0, fun _ => 0⟩ (fun _ => 0) 0
        (some 0) (some 2) false).1.head?
      = some (Effect.move (-(1 / 2))) ∧
    (-(1 / 2) : ℚ) ≠ 0 := by
  refine ⟨rfl, ?_, by norm_num⟩
  norm_num [TuneAxisState.tune, TuneAxisState.init, tunePositions,
    linspace, peakChoices, orDefaultQ, orDefaultN, List.range,
    List.range.loop]

/-- C7 (amended): an explicit width = 0 argument is falsy and silently
replaced by the instance default width, so a tune call degenerates to
repeated sampling at the single current axis position exactly when the
effective width — the instance default — is 0; then all num scan
positions equal the initial position and, when the response there is
nonnegative, no peak is detected and every commanded move (including the
final one) targets the initial position. -/
theorem tune_degenerates_iff_effective_width_zero
    (s : TuneAxisState) (E : Estimators) (det : ℚ → ℚ) (axisPos : ℚ)
    (num? : Option ℕ) (inMultiPass : Bool)
    (hw : s.width = 0) (hdet : 0 ≤ det axisPos) :
    orDefaultQ (some 0) s.width = s.width ∧
    tunePositions axisPos (orDefaultQ (some 0) s.width)
        (orDefaultN num? s.num)
      = List.replicate (orDefaultN num? s.num) axisPos ∧
    (s.peak_choice ∈ peakChoices →
      (s.tune E det axisPos (some 0) num? inMultiPass).1
        = (List.replicate (orDefaultN num? s.num) axisPos).flatMap
              (fun p => [Effect.move p, Effect.triggerRead])
            ++ [Effect.move axisPos]) := by
  have hor : orDefaultQ (some 0) s.width = s.width := rfl
  have hpos : tunePositions axisPos (orDefaultQ (some 0) s.width)
      (orDefaultN num? s.num)
        = List.replicate (orDefaultN num? s.num) axisPos := by
    rw [hor, hw, tunePositions]
    norm_num [linspace_self]
  have hsamp : tuneSamples det axisPos (orDefaultQ (some 0) s.width)
      (orDefaultN num? s.num)
        = List.replicate (orDefaultN num? s.num) (axisPos, det axisPos) := by
    rw [tuneSamples, hpos, List.map_replicate]
  have hdetec : tuneDetected det axisPos (orDefaultQ (some 0) s.width)
      (orDefaultN num? s.num) = false := by
    rw [tuneDetected, hsamp]
    cases hn : orDefaultN num? s.num with
    | zero => rfl
    | succ k =>
      rw [peakDetectedOn, ymax?_replicate, ymin?_replicate]
      simp only [decide_eq_false_iff_not]
      intro hgt
      nlinarith [hdet, hgt]
  refine ⟨hor, hpos, fun hc => ?_⟩
  simp only [TuneAxisState.tune, if_pos hc]
  rw [hdetec, hpos, tuneFinalPos, hdetec]
  simp

/-- A successful tune pass in multi-pass mode appends exactly one entry
to the pass history and records the detection outcome both in the state
and in the result. -/
theorem tune_multipass_components (s : TuneAxisState) (E : Estimators)
    (det : ℚ → ℚ) (pos : ℚ) (width? : Option ℚ) (num? : Option ℕ)
    (res : TuneResult) (s1 : TuneAxisState)
    (h : (s.tune E det pos width? num? true).2 = Except.ok (res, s1)) :
    s1.stats = s.stats
        ++ [⟨tuneSamples det pos (orDefaultQ width? s.width)
              (orDefaultN num? s.num)⟩] ∧
    s1.tune_ok = res.tune_ok := by
  by_cases hc : s.peak_choice ∈ peakChoices
  · simp only [TuneAxisState.tune, if_pos hc] at h
    rw [Except.ok.injEq, Prod.mk.injEq] at h
    obtain ⟨hres, hst⟩ := h
    subst hres
    subst hst
    exact ⟨rfl, rfl⟩
  · simp only [TuneAxisState.tune, if_neg hc] at h
    exact absurd h (by simp)

theorem getLast?_cons_ne_nil {α : Type} (a : α) (l : List α)
    (h : l ≠ []) : (a :: l).getLast? = l.getLast? := by
  cases l with
  | nil => exact absurd rfl h
  | cons b l2 => rfl

/-- Shape of one multi-pass run: the pass budget bounds the number of
executed passes, every pass but the last succeeded, an early stop means
the last pass failed, the pass history grows by one entry per executed
pass, and one width is recorded per executed pass. -/
theorem multiPassLoop_spec (E : Estimators) (det : ℕ → ℚ → ℚ) (sf : ℚ)
    (snake : Bool) (num? : Option ℕ) :
    ∀ (r k : ℕ) (w pos : ℚ) (s : TuneAxisState) (out : MultiPassOut),
      multiPassLoop E det sf snake num? r k w pos s = Except.ok out →
      out.oks.length ≤ r ∧
      out.widths.length = out.oks.length ∧
      out.state.stats.length = s.stats.length + out.oks.length ∧
      (∀ i, i + 1 < out.oks.length → out.oks[i]? = some true) ∧
      (out.oks.length < r → out.oks.getLast? = some false) ∧
      (0 < r → out.oks ≠ []) := by
  intro r
  induction r with
  | zero =>
    intro k w pos s out h
    rw [multiPassLoop, Except.ok.injEq] at h
    subst h
    refine ⟨le_rfl, rfl, ?_, ?_, ?_, ?_⟩
    · simp
    · intro i hi
      simp at hi
    · intro hlt
      omega
    · intro h0
      omega
  | succ r ih =>
    intro k w pos s out h
    rw [multiPassLoop] at h
    cases htune : (s.tune E (det k) pos (some w) num? true).2 with
    | error e =>
      rw [htune] at h
      exact absurd h (by simp)
    | ok p =>
      obtain ⟨res, s1⟩ := p
      rw [htune] at h
      simp only at h
      obtain ⟨hstats, -⟩ := tune_multipass_components s E (det k) pos
        (some w) num? res s1 htune
      by_cases hτ : s1.tune_ok
      · rw [if_pos hτ] at h
        cases hrec : multiPassLoop E det sf snake num? r (k + 1)
            (if snake then -(w / sf) else w / sf) res.final_position s1 with
        | error e =>
          rw [hrec] at h
          exact absurd h (by simp)
        | ok out1 =>
          rw [hrec] at h
          rw [Except.ok.injEq] at h
          subst h
          obtain ⟨h1, h2, h3, h4, h5, h6⟩ :=
            ih (k + 1) (if snake then -(w / sf) else w / sf)
              res.final_position s1 out1 hrec
          refine ⟨?_, ?_, ?_, ?_, ?_, ?_⟩
          · simpa using Nat.succ_le_succ h1
          · simpa using h2
          · have : s1.stats.length = s.stats.length + 1 := by
              rw [hstats]
              simp
            simp only [List.length_cons, h3, this]
            omega
          · intro i hi
            cases i with
            | zero =>
              simp [hτ]
            | succ j =>
              simp only [List.length_cons] at hi
              simpa using h4 j (by omega)
          · intro hlt
            simp only [List.length_cons] at hlt
            have hne : out1.oks ≠ [] := h6 (by omega)
            rw [getLast?_cons_ne_nil _ _ hne]
            exact h5 (by omega)
          · intro h0
            simp
      · rw [if_neg hτ] at h
        rw [Except.ok.injEq] at h
        subst h
        have hfalse : s1.tune_ok = false := by
          simpa using hτ
        refine ⟨?_, rfl, ?_, ?_, ?_, ?_⟩
        · simp
        · rw [hstats]
          simp
        · intro i hi
          simp at hi
        · intro hlt
          simp [hfalse]
        · intro h0
          simp

/-- With snake enabled, the width handed to pass j (relative to a loop
started at width w) is (-1)^j * w / sf^j: divided by the step factor and
negated after every pass. -/
theorem multiPassLoop_widths (E : Estimators) (det : ℕ → ℚ → ℚ) (sf : ℚ)
    (num? : Option ℕ) :
    ∀ (r k : ℕ) (w pos : ℚ) (s : TuneAxisState) (out : MultiPassOut),
      multiPassLoop E det sf true num? r k w pos s = Except.ok out →
      ∀ j, j < out.widths.length →
        out.widths[j]? = some ((-1 : ℚ) ^ j * w / sf ^ j) := by
  intro r
  induction r with
  | zero =>
    intro k w pos s out h
    rw [multiPassLoop, Except.ok.injEq] at h
    subst h
    intro j hj
    simp at hj
  | succ r ih =>
    intro k w pos s out h
    rw [multiPassLoop] at h
    cases htune : (s.tune E (det k) pos (some w) num? true).2 with
    | error e =>
      rw [htune] at h
      exact absurd h (by simp)
    | ok p =>
      obtain ⟨res, s1⟩ := p
      rw [htune] at h
      simp only at h
      by_cases hτ : s1.tune_ok
      · rw [if_pos hτ] at h
        simp only [if_true] at h
        cases hrec : multiPassLoop E det sf true num? r (k + 1)
            (-(w / sf)) res.final_position s1 with
        | error e =>
          rw [hrec] at h
          exact absurd h (by simp)
        | ok out1 =>
          rw [hrec] at h
          rw [Except.ok.injEq] at h
          subst h
          intro j hj
          cases j with
          | zero =>
            simp
          | succ i =>
            simp only [List.length_cons] at hj
            have hrec1 : out1.widths[i]?
                = some ((-1 : ℚ) ^ i * -(w / sf) / sf ^ i) :=
              ih (k + 1) (-(w / sf)) res.final_position s1
                out1 hrec i (by omega)
            rw [List.getElem?_cons_succ, hrec1, Option.some.injEq,
              pow_succ, pow_succ]
            ring
      · rw [if_neg hτ] at h
        rw [Except.ok.injEq] at h
        subst h
        intro j hj
        simp only [List.length_cons, List.length_nil] at hj
        have hj0 : j = 0 := by omega
        subst hj0
        simp

/-- C3: a multi-pass run with effective pass budget N stops at the first
pass with tune_ok = false or after N passes, whichever comes first: the
pass history gains one entry per executed pass and has length at most N,
every executed pass before the last had tune_ok = true (so length = N
forces all passes before the last to have succeeded), and a history
shorter than N ends with a failed pass. -/
theorem multi_pass_stops_on_failure_or_budget
    (s : TuneAxisState) (E : Estimators) (det : ℕ → ℚ → ℚ) (axisPos : ℚ)
    (width? stepFactor? : Option ℚ) (num? passMax? : Option ℕ)
    (snake? : Option Bool) (out : MultiPassOut)
    (h : s.multi_pass_tune E det axisPos width? stepFactor? num? passMax?
          snake? = Except.ok out) :
    out.state.stats.length ≤ orDefaultN passMax? s.pass_max ∧
    out.state.stats.length = out.oks.length ∧
    (∀ i, i + 1 < out.oks.length → out.oks[i]? = some true) ∧
    (out.oks.length = orDefaultN passMax? s.pass_max →
      ∀ i, i + 1 < orDefaultN passMax? s.pass_max →
        out.oks[i]? = some true) ∧
    (out.oks.length < orDefaultN passMax? s.pass_max →
      out.oks.getLast? = some false) := by
  simp only [TuneAxisState.multi_pass_tune] at h
  obtain ⟨h1, h2, h3, h4, h5, h6⟩ := multiPassLoop_spec E det
    (orDefaultQ stepFactor? s.step_factor) (orDefaultB snake? s.snake)
    (some (orDefaultN num? s.num)) (orDefaultN passMax? s.pass_max) 0
    (orDefaultQ width? s.width) axisPos { s with stats := [] } out h
  have hlen : out.state.stats.length = out.oks.length := by
    rw [h3]
    simp
  refine ⟨?_, hlen, h4, ?_, ?_⟩
  · rw [hlen]
    exact h1
  · intro heq i hi
    exact h4 i (by omega)
  · intro hlt
    exact h5 hlt

/-- Witness for C3: a one-pass budget exhausted by a failed first pass. -/
theorem multi_pass_stops_on_failure_or_budget_witness :
    (⟨{ TuneAxisState.init with
          width := 0
          num := 1
          pass_max := 1
          peaks := some ⟨[(0, 1)]⟩
          stats := [⟨[(0, 1)]⟩] }, 0, [0], [false]⟩ :
        MultiPassOut).state.stats.length
      ≤ orDefaultN none
          ({ TuneAxisState.init with
              width := 0
              num := 1
              pass_max := 1 } : TuneAxisState).pass_max ∧
    (⟨{ TuneAxisState.init with
          width := 0
          num := 1
          pass_max := 1
          peaks := some ⟨[(0, 1)]⟩
          stats := [⟨[(0, 1)]⟩] }, 0, [0], [false]⟩ :
        MultiPassOut).state.stats.length
      = (⟨{ TuneAxisState.init with
              width := 0
              num := 1
              pass_max := 1
              peaks := some ⟨[(0, 1)]⟩
              stats := [⟨[(0, 1)]⟩] }, 0, [0], [false]⟩ :
            MultiPassOut).oks.length ∧
    (∀ i, i + 1 < ([false] : List Bool).length →
      ([false] : List Bool)[i]? = some true) ∧
    (([false] : List Bool).length
        = orDefaultN none
            ({ TuneAxisState.init with
                width := 0
                num := 1
                pass_max := 1 } : TuneAxisState).pass_max →
      ∀ i, i + 1 < orDefaultN none
          ({ TuneAxisState.init with
              width := 0
              num := 1
              pass_max := 1 } : TuneAxisState).pass_max →
        ([false] : List Bool)[i]? = some true) ∧
    (([false] : List Bool).length
        < orDefaultN none
            ({ TuneAxisState.init with
                width := 0
                num := 1
                pass_max := 1 } : TuneAxisState).pass_max →
      ([false] : List Bool).getLast? = some false) := by
  have h := multi_pass_stops_on_failure_or_budget
    { TuneAxisState.init with width := 0, num := 1, pass_max := 1 }
    ⟨fun _ => 0, fun _ => 0⟩ (fun _ _ => 1) 0 none none none none none
    ⟨{ TuneAxisState.init with
        width := 0
        num := 1
        pass_max := 1
        peaks := some ⟨[(0, 1)]⟩
        stats := [⟨[(0, 1)]⟩] }, 0, [0], [false]⟩
    (by simp [TuneAxisState.multi_pass_tune, multiPassLoop,
      TuneAxisState.tune, tuneSamples, tunePositions, tuneDetected,
      tuneFinalPos, linspace, peakChoices, orDefaultQ, orDefaultN,
      orDefaultB, peakDetectedOn, PeakStatsModel.ymax?,
      PeakStatsModel.ymin?, TuneAxisState.init])
  exact h

/-- C4: in a snake-enabled multi-pass run with nonzero initial width w0
and positive step factor sf, the width handed to pass j equals
(-1)^j * w0 / sf^j: its magnitude is the initial magnitude divided by
sf^j, it is never zero, and each pass's width is the previous one divided
by the step factor and negated — the sign alternates every pass. -/
theorem snake_width_divided_and_negated_each_pass
    (s : TuneAxisState) (E : Estimators) (det : ℕ → ℚ → ℚ) (axisPos : ℚ)
    (w0 sf : ℚ) (num? passMax? : Option ℕ) (out : MultiPassOut)
    (hw : w0 ≠ 0) (hsf : 0 < sf)
    (h : s.multi_pass_tune E det axisPos (some w0) (some sf) num? passMax?
          (some true) = Except.ok out) :
    (∀ j, j < out.widths.length →
      out.widths[j]? = some ((-1 : ℚ) ^ j * w0 / sf ^ j)) ∧
    (∀ j, j < out.widths.length →
      |(-1 : ℚ) ^ j * w0 / sf ^ j| = |w0| / sf ^ j ∧
      (-1 : ℚ) ^ j * w0 / sf ^ j ≠ 0) ∧
    (∀ j, j + 1 < out.widths.length →
      out.widths[j + 1]?
        = some (-(((-1 : ℚ) ^ j * w0 / sf ^ j) / sf))) := by
  simp only [TuneAxisState.multi_pass_tune, orDefaultQ, orDefaultB] at h
  rw [if_neg hw, if_neg (ne_of_gt hsf)] at h
  have hws := multiPassLoop_widths E det sf
    (some (orDefaultN num? s.num)) (orDefaultN passMax? s.pass_max) 0
    w0 axisPos { s with stats := [] } out h
  refine ⟨hws, ?_, ?_⟩
  · intro j hj
    constructor
    · rw [abs_div, abs_mul, abs_pow, abs_pow, abs_neg, abs_one, one_pow,
        one_mul, abs_of_pos hsf]
    · exact div_ne_zero
        (mul_ne_zero (pow_ne_zero j (by norm_num)) hw)
        (pow_ne_zero j (ne_of_gt hsf))
  · intro j hj
    rw [hws (j + 1) hj, Option.some.injEq, pow_succ, pow_succ]
    ring

/-- Witness for C4: a single executed snake pass records width w0 = 1. -/
theorem snake_width_divided_and_negated_each_pass_witness :
    (1 : ℚ) ≠ 0 ∧ (0 : ℚ) < 2 ∧
    ((∀ j, j < ([1] : List ℚ).length →
      ([1] : List ℚ)[j]? = some ((-1 : ℚ) ^ j * 1 / 2 ^ j)) ∧
    (∀ j, j < ([1] : List ℚ).length →
      |(-1 : ℚ) ^ j * 1 / 2 ^ j| = |(1 : ℚ)| / 2 ^ j ∧
      (-1 : ℚ) ^ j * 1 / 2 ^ j ≠ 0) ∧
    (∀ j, j + 1 < ([1] : List ℚ).length →
      ([1] : List ℚ)[j + 1]?
        = some (-(((-1 : ℚ) ^ j * 1 / 2 ^ j) / 2)))) := by
  refine ⟨by norm_num, by norm_num, ?_⟩
  exact snake_width_divided_and_negated_each_pass
    { TuneAxisState.init with num := 1, pass_max := 1 }
    ⟨fun _ => 0, fun _ => 0⟩ (fun _ _ => 1) (1 / 2) 1 2 none none
    ⟨{ TuneAxisState.init with
        num := 1
        pass_max := 1
        peaks := some ⟨[(0, 1)]⟩
        stats := [⟨[(0, 1)]⟩] }, 1 / 2, [1], [false]⟩
    (by norm_num) (by norm_num)
    (by simp [TuneAxisState.multi_pass_tune, multiPassLoop,
      TuneAxisState.tune, tuneSamples, tunePositions, tuneDetected,
      tuneFinalPos, linspace, peakChoices, orDefaultQ, orDefaultN,
      orDefaultB, peakDetectedOn, PeakStatsModel.ymax?,
      PeakStatsModel.ymin?, TuneAxisState.init])

/-- C10: multi_pass_tune replaces every falsy argument by the instance
default before the run starts: on an instance whose snake default is
true, an explicit snake = false is ignored and the run is identical to
snake = true; explicit width = 0, step_factor = 0, num = 0 and
pass_max = 0 are each silently replaced by the instance default rather
than honored. -/
theorem multi_pass_falsy_arguments_replaced_by_defaults
    (s : TuneAxisState) (E : Estimators) (det : ℕ → ℚ → ℚ) (axisPos : ℚ)
    (width? stepFactor? : Option ℚ) (num? passMax? : Option ℕ)
    (snake? : Option Bool) (hsn : s.snake = true) :
    orDefaultB (some false) s.snake = s.snake ∧
    orDefaultQ (some 0) s.width = s.width ∧
    s.multi_pass_tune E det axisPos width? stepFactor? num? passMax?
        (some false)
      = s.multi_pass_tune E det axisPos width? stepFactor? num? passMax?
        (some true) ∧
    s.multi_pass_tune E det axisPos (some 0) stepFactor? num? passMax?
        snake?
      = s.multi_pass_tune E det axisPos none stepFactor? num? passMax?
        snake? ∧
    s.multi_pass_tune E det axisPos width? (some 0) num? passMax? snake?
      = s.multi_pass_tune E det axisPos width? none num? passMax?
        snake? ∧
    s.multi_pass_tune E det axisPos width? stepFactor? (some 0) passMax?
        snake?
      = s.multi_pass_tune E det axisPos width? stepFactor? none passMax?
        snake? ∧
    s.multi_pass_tune E det axisPos width? stepFactor? num? (some 0)
        snake?
      = s.multi_pass_tune E det axisPos width? stepFactor? num? none
        snake? := by
  refine ⟨?_, ?_, ?_, ?_, ?_, ?_, ?_⟩ <;>
    simp [TuneAxisState.multi_pass_tune, orDefaultQ, orDefaultN,
      orDefaultB, hsn]

/-- Witness for C10 on the default instance, whose snake default is
true. -/
theorem multi_pass_falsy_arguments_replaced_by_defaults_witness :
    orDefaultB (some false) TuneAxisState.init.snake
      = TuneAxisState.init.snake ∧
    orDefaultQ (some 0) TuneAxisState.init.width
      = TuneAxisState.init.width ∧
    TuneAxisState.init.multi_pass_tune ⟨fun _ => 0, fun _ => 0⟩
        (fun _ _ => 0) 0 none none none none (some false)
      = TuneAxisState.init.multi_pass_tune ⟨fun _ => 0, fun _ => 0⟩
        (fun _ _ => 0) 0 none none none none (some true) ∧
    TuneAxisState.init.multi_pass_tune ⟨fun _ => 0, fun _ => 0⟩
        (fun _ _ => 0) 0 (some 0) none none none none
      = TuneAxisState.init.multi_pass_tune ⟨fun _ => 0, fun _ => 0⟩
        (fun _ _ => 0) 0 none none none none none ∧
    TuneAxisState.init.multi_pass_tune ⟨fun _ => 0, fun _ => 0⟩
        (fun _ _ => 0) 0 none (some 0) none none none
      = TuneAxisState.init.multi_pass_tune ⟨fun _ => 0, fun _ => 0⟩
        (fun _ _ => 0) 0 none none none none none ∧
    TuneAxisState.init.multi_pass_tune ⟨fun _ => 0, fun _ => 0⟩
        (fun _ _ => 0) 0 none none (some 0) none none
      = TuneAxisState.init.multi_pass_tune ⟨fun _ => 0, fun _ => 0⟩
        (fun _ _ => 0) 0 none none none none none ∧
    TuneAxisState.init.multi_pass_tune ⟨fun _ => 0, fun _ => 0⟩
        (fun _ _ => 0) 0 none none none (some 0) none
      = TuneAxisState.init.multi_pass_tune ⟨fun _ => 0, fun _ => 0⟩
        (fun _ _ => 0) 0 none none none none none :=
  multi_pass_falsy_arguments_replaced_by_defaults TuneAxisState.init
    ⟨fun _ => 0, fun _ => 0⟩ (fun _ _ => 0) 0 none none none none none
    rfl

/-- Witness for C7 (amended): a zero default-width instance sampling a
flat nonnegative response degenerates to repeated sampling at the
initial position. -/
theorem tune_degenerates_iff_effective_width_zero_witness :
    orDefaultQ (some 0)
        ({ TuneAxisState.init with width := 0 } : TuneAxisState).width
      = ({ TuneAxisState.init with width := 0 } : TuneAxisState).width ∧
    tunePositions 0
        (orDefaultQ (some 0)
          ({ TuneAxisState.init with width := 0 } : TuneAxisState).width)
        (orDefaultN none
          ({ TuneAxisState.init with width := 0 } : TuneAxisState).num)
      = List.replicate
          (orDefaultN none
            ({ TuneAxisState.init with width := 0 } : TuneAxisState).num) 0 ∧
    (({ TuneAxisState.init with width := 0 } : TuneAxisState).peak_choice
        ∈ peakChoices →
      (({ TuneAxisState.init with width := 0 } : TuneAxisState).tune
          ⟨fun _ => 0, fun _ => 0⟩ (fun _ => 1) 0 (some 0) none false).1
        = (List.replicate
              (orDefaultN none
                ({ TuneAxisState.init with width := 0 } :
                  TuneAxisState).num) 0).flatMap
              (fun p => [Effect.move p, Effect.triggerRead])
            ++ [Effect.move 0]) :=
  tune_degenerates_iff_effective_width_zero
    { TuneAxisState.init with width := 0 } ⟨fun _ => 0, fun _ => 0⟩
    (fun _ => 1) 0 none false rfl (by norm_num)

/-- C1: a completed tune pass with tune_ok = false reports
final_position = initial_position, and its last commanded move returns
the axis to the initial position recorded at the start of the pass — a
failed tune never relocates the axis. -/
theorem failed_tune_pass_returns_axis_to_initial
    (s : TuneAxisState) (E : Estimators) (det : ℚ → ℚ) (axisPos : ℚ)
    (width? : Option ℚ) (num? : Option ℕ) (inMultiPass : Bool)
    (effs : List Effect) (res : TuneResult) (s1 : TuneAxisState)
    (h : s.tune E det axisPos width? num? inMultiPass
          = (effs, Except.ok (res, s1)))
    (hok : res.tune_ok = false) :
    res.final_position = res.initial_position ∧
    res.initial_position = axisPos ∧
    effs.getLast? = some (Effect.move res.initial_position) := by
  simp only [TuneAxisState.tune] at h
  split at h
  · rw [Prod.mk.injEq] at h
    obtain ⟨hE, hR⟩ := h
    rw [Except.ok.injEq, Prod.mk.injEq] at hR
    obtain ⟨hres, hst⟩ := hR
    subst hres hE
    replace hok : tuneDetected det axisPos (orDefaultQ width? s.width)
        (orDefaultN num? s.num) = false := hok
    refine ⟨?_, rfl, ?_⟩
    · show tuneFinalPos s E det axisPos (orDefaultQ width? s.width)
        (orDefaultN num? s.num) = axisPos
      rw [tuneFinalPos, hok]
      simp
    · simp [hok, tuneFinalPos, List.getLast?_append]
  · simp at h

/-- Witness for C1: a one-point zero-width pass over a flat unit response
fails to detect a peak and ends with a move back to the initial
position 0. -/
theorem failed_tune_pass_returns_axis_to_initial_witness :
    ({ tune_ok := false, initial_position := 0, final_position := 0,
        center := none } : TuneResult).final_position
      = ({ tune_ok := false, initial_position := 0, final_position := 0,
            center := none } : TuneResult).initial_position ∧
    ({ tune_ok := false, initial_position := 0, final_position := 0,
        center := none } : TuneResult).initial_position = 0 ∧
    ([Effect.move 0, Effect.triggerRead, Effect.move 0] :
        List Effect).getLast?
      = some (Effect.move
          ({ tune_ok := false, initial_position := 0, final_position := 0,
              center := none } : TuneResult).initial_position) :=
  failed_tune_pass_returns_axis_to_initial
    { TuneAxisState.init with width := 0, num := 1 }
    ⟨fun _ => 0, fun _ => 0⟩ (fun _ => 1) 0 none none false
    [Effect.move 0, Effect.triggerRead, Effect.move 0]
    { tune_ok := false, initial_position := 0, final_position := 0,
      center := none }
    { TuneAxisState.init with
        width := 0
        num := 1
        tune_ok := false
        peaks := some ⟨[(0, 1)]⟩
        stats := [⟨[(0, 1)]⟩] }
    (by simp [TuneAxisState.tune, TuneAxisState.init, tuneSamples,
      tunePositions, tuneDetected, tuneFinalPos, linspace, peakChoices,
      orDefaultQ, orDefaultN, peakDetectedOn, PeakStatsModel.ymax?,
      PeakStatsModel.ymin?])
    rfl

/-- One monitor step can only increase the emitted-row count. -/
theorem sscanStep_rows_mono (rs : Bool) (s : SscanState) (e : SscanEvent) :
    s.rows ≤ (sscanStep rs s e).rows := by
  cases e <;> cases rs <;> cases hnd : s.new_data <;>
    cases hdn : s.done <;> cases hex : s.exited <;>
    cases hsub : s.subscribed <;>
    simp [sscanStep, hnd, hdn, hex, hsub]

/-- The pending-row flag accounts for at most one future row: the row
count plus the pending flag never exceeds its starting value plus the
number of new-data notifications consumed. -/
theorem sscanRun_measure_le (rs : Bool) :
    ∀ (events : List SscanEvent) (s : SscanState),
      (events.foldl (sscanStep rs) s).rows
          + (if (events.foldl (sscanStep rs) s).new_data then 1 else 0)
        ≤ s.rows + (if s.new_data then 1 else 0) + countNewData events := by
  intro events
  induction events with
  | nil =>
    intro s
    simp [countNewData]
  | cons e es ih =>
    intro s
    have hstep : (sscanStep rs s e).rows
        + (if (sscanStep rs s e).new_data then 1 else 0)
      ≤ s.rows + (if s.new_data then 1 else 0)
        + (if e = SscanEvent.newData then 1 else 0) := by
      cases e <;> cases rs <;> cases hnd : s.new_data <;>
        cases hdn : s.done <;> cases hex : s.exited <;>
        cases hsub : s.subscribed <;>
        simp [sscanStep, hnd, hdn, hex, hsub]
    have hes : countNewData (e :: es)
        = (if e = SscanEvent.newData then 1 else 0) + countNewData es := by
      simp only [countNewData, List.countP_cons]
      split <;> simp_all
      omega
    calc ((e :: es).foldl (sscanStep rs) s).rows
          + (if ((e :: es).foldl (sscanStep rs) s).new_data then 1 else 0)
        = (es.foldl (sscanStep rs) (sscanStep rs s e)).rows
            + (if (es.foldl (sscanStep rs) (sscanStep rs s e)).new_data
                then 1 else 0) := by rw [List.foldl_cons]
      _ ≤ (sscanStep rs s e).rows
            + (if (sscanStep rs s e).new_data then 1 else 0)
            + countNewData es := ih (sscanStep rs s e)
      _ ≤ s.rows + (if s.new_data then 1 else 0)
            + (if e = SscanEvent.newData then 1 else 0)
            + countNewData es := by omega
      _ = s.rows + (if s.new_data then 1 else 0)
            + countNewData (e :: es) := by rw [hes]; omega

/-- Inductive invariant of the monitor: a loop exit implies no pending
row and a done status, and a done status implies the callbacks are
unsubscribed. -/
theorem sscanRun_invariant (rs : Bool) :
    ∀ (events : List SscanEvent) (s : SscanState),
      ((s.exited = true → s.new_data = false ∧ s.done = true) ∧
        (s.done = true → s.subscribed = false)) →
      (((events.foldl (sscanStep rs) s).exited = true →
          (events.foldl (sscanStep rs) s).new_data = false ∧
          (events.foldl (sscanStep rs) s).done = true) ∧
        ((events.foldl (sscanStep rs) s).done = true →
          (events.foldl (sscanStep rs) s).subscribed = false)) := by
  intro events
  induction events with
  | nil =>
    intro s hs
    simpa using hs
  | cons e es ih =>
    intro s hs
    rw [List.foldl_cons]
    refine ih (sscanStep rs s e) ?_
    obtain ⟨h1, h2⟩ := hs
    cases e <;> cases rs <;> cases hnd : s.new_data <;>
      cases hdn : s.done <;> cases hex : s.exited <;>
      cases hsub : s.subscribed <;>
      simp_all [sscanStep]

/-- Running K well-spaced notification/poll blocks from a clean live
state emits one row per block and returns to a clean live state. -/
theorem sscanSpaced_blocks (r : ℕ) :
    ∀ K : ℕ,
      (List.replicate K
          [SscanEvent.newData, SscanEvent.loopIter]).flatten.foldl
          (sscanStep true)
          ⟨false, false, false, true, false, r⟩
        = ⟨false, false, false, true, false, r + K⟩ := by
  intro K
  induction K generalizing r with
  | zero => rfl
  | succ k ih =>
    rw [List.replicate_succ, List.flatten_cons, List.foldl_append]
    have hstep : ([SscanEvent.newData, SscanEvent.loopIter].foldl
        (sscanStep true) ⟨false, false, false, true, false, r⟩ :
          SscanState)
        = ⟨false, false, false, true, false, r + 1⟩ := rfl
    rw [hstep, ih (r + 1)]
    have : r + 1 + k = r + (k + 1) := by omega
    rw [this]

/-- C5 counterexample: a run in which the device raises exactly two
new-data notifications and then signals idle, but both notifications
arrive before the loop polls: the pending-row flag coalesces them and
only one row is emitted, although the loop exits and the status reports
success. -/
theorem coalesced_notifications_lose_rows :
    countNewData [SscanEvent.newData, SscanEvent.newData, SscanEvent.idle,
        SscanEvent.loopIter, SscanEvent.loopIter] = 2 ∧
    (sscanRun true [SscanEvent.newData, SscanEvent.newData,
        SscanEvent.idle, SscanEvent.loopIter, SscanEvent.loopIter]).exited
      = true ∧
    (sscanRun true [SscanEvent.newData, SscanEvent.newData,
        SscanEvent.idle, SscanEvent.loopIter,
        SscanEvent.loopIter]).success = true ∧
    (sscanRun true [SscanEvent.newData, SscanEvent.newData,
        SscanEvent.idle, SscanEvent.loopIter, SscanEvent.loopIter]).rows
      = 1 := by
  decide

/-- C5 (amended): rows_emitted is monotonically non-decreasing and never
exceeds the number of new-data notifications raised, the loop never
exits with a row still pending, and when every notification is observed
by a poll before the next arrives (no coalescing), a device raising
exactly K notifications and then idle yields exactly K emitted rows with
the loop exited and the completion status successful. -/
theorem scan_monitor_row_accounting (K : ℕ) (rs : Bool)
    (events : List SscanEvent) (s : SscanState) (e : SscanEvent) :
    (sscanRun true (sscanSpaced K)).rows = K ∧
    (sscanRun true (sscanSpaced K)).exited = true ∧
    (sscanRun true (sscanSpaced K)).success = true ∧
    countNewData (sscanSpaced K) = K ∧
    (sscanRun rs events).rows ≤ countNewData events ∧
    s.rows ≤ (sscanStep rs s e).rows ∧
    ((sscanRun rs events).exited = true →
      (sscanRun rs events).new_data = false) := by
  have hspaced : sscanRun true (sscanSpaced K)
      = ⟨false, true, true, false, true, K⟩ := by
    rw [sscanRun, sscanSpaced, List.foldl_append]
    have h0 : (SscanState.start : SscanState)
        = ⟨false, false, false, true, false, 0⟩ := rfl
    rw [h0, sscanSpaced_blocks 0 K]
    have : (0 : ℕ) + K = K := by omega
    rw [this]
    rfl
  refine ⟨by rw [hspaced], by rw [hspaced], by rw [hspaced], ?_, ?_,
    sscanStep_rows_mono rs s e, ?_⟩
  · rw [sscanSpaced, countNewData]
    induction K with
    | zero => rfl
    | succ k ih =>
      rw [List.replicate_succ, List.flatten_cons]
      simp only [List.countP_append, List.countP_cons] at ih ⊢
      simp_all
      omega
  · have h := sscanRun_measure_le rs events SscanState.start
    have h0 : (SscanState.start.rows
        + (if SscanState.start.new_data then 1 else 0)) = 0 := rfl
    rw [sscanRun]
    omega
  · intro hex
    exact ((sscanRun_invariant rs events SscanState.start
      (by simp [SscanState.start])).1 hex).1

/-- Witness for C5 (amended): with one well-spaced notification the
loop exits with no pending row and exactly one row emitted. -/
theorem scan_monitor_row_accounting_witness :
    (sscanRun true (sscanSpaced 1)).new_data = false ∧
    (sscanRun true (sscanSpaced 1)).rows = 1 :=
  ⟨(scan_monitor_row_accounting 1 true (sscanSpaced 1) SscanState.start
      SscanEvent.newData).2.2.2.2.2.2
    ((scan_monitor_row_accounting 1 true (sscanSpaced 1) SscanState.start
      SscanEvent.newData).2.1),
   (scan_monitor_row_accounting 1 true (sscanSpaced 1) SscanState.start
      SscanEvent.newData).1⟩

/-- A poll-loop check at a time not later than the expiry leaves the
initial adapter state unchanged. -/
theorem blockerRun_prefix (texp : ℚ) :
    ∀ (pre : List ℚ), (∀ u ∈ pre, u ≤ texp) →
      (pre.map BlockerEvent.loopCheck).foldl (blockerStep (some texp))
          BlockerState.start
        = BlockerState.start := by
  intro pre
  induction pre with
  | nil =>
    intro _
    rfl
  | cons u us ih =>
    intro hall
    rw [List.map_cons, List.foldl_cons]
    have hstep : blockerStep (some texp) BlockerState.start
        (BlockerEvent.loopCheck u) = BlockerState.start := by
      simp only [blockerStep, BlockerState.start]
      rw [if_neg (by simp), if_neg (by simp),
        if_neg (not_lt.mpr (hall u (by simp)))]
    rw [hstep]
    exact ih (fun v hv => hall v (by simp [hv]))

/-- C9: when the configured timeout expires before the blocking call
completes, the adapter marks the completion status done with
success = false and the await loop exits; the blocking call is not
killed — it still runs to completion afterwards, and its own success
report has no effect on the already-finished status. -/
theorem blocker_timeout_fails_status_without_killing_call
    (texp t : ℚ) (pre : List ℚ)
    (hpre : ∀ u ∈ pre, u ≤ texp) (ht : texp < t) :
    blockerRun (some texp)
        (pre.map BlockerEvent.loopCheck
          ++ [BlockerEvent.loopCheck t, BlockerEvent.threadFinish])
      = { done := true, success := false, blockerRan := true,
          exited := true } := by
  rw [blockerRun, List.foldl_append, blockerRun_prefix texp pre hpre]
  have hstep1 : blockerStep (some texp) BlockerState.start
      (BlockerEvent.loopCheck t)
        = { done := true, success := false, blockerRan := false,
            exited := true } := by
    simp only [blockerStep, BlockerState.start, markFinished]
    rw [if_neg (by simp), if_neg (by simp), if_pos ht]
    rfl
  rw [List.foldl_cons, hstep1, List.foldl_cons]
  rfl

/-- Witness for C9: expiry 0, one poll at time 1, then the thread
finishes. -/
theorem blocker_timeout_fails_status_without_killing_call_witness :
    blockerRun (some 0)
        (([] : List ℚ).map BlockerEvent.loopCheck
          ++ [BlockerEvent.loopCheck 1, BlockerEvent.threadFinish])
      = { done := true, success := false, blockerRan := true,
          exited := true } :=
  blocker_timeout_fails_status_without_killing_call 0 1 []
    (by simp) zero_lt_one

/-- Witness for C6 (amended): the interval -1 is rejected, the interval
0.1 is accepted. -/
theorem poll_interval_validation_witness :
    sscanSetup (-1) = ([], Except.error pollDelayMsg) ∧
    sscanSetup (1 / 10)
      = ([SetupEffect.selectChannels, SetupEffect.subscribeExecute,
          SetupEffect.subscribePhase, SetupEffect.openRun,
          SetupEffect.startCommand], Except.ok ()) :=
  ⟨(poll_interval_validation (-1)).1 (by simp),
   (poll_interval_validation (1 / 10)).2.2.2⟩

end Apstools
